import Mathlib

/-!
# Verification of the HealthOmics launch/poll orchestration handlers

Shallow embedding of `lambda_src/poll-omics-workflows.py` and
`lambda_src/launch-omics-workflows.py`.  External API calls (`omics.get_run`,
`omics.start_run`) are modelled as oracles supplied as explicit arguments;
sleeps are recorded as trace events or returned delay lists.
-/

/-! ## Shared data model -/

/-- A record of the launcher's `launched_workflows` list:
`{'workflow_name': ..., 'run_id': response['id'], 'arn': response['arn']}`. -/
structure LaunchedWorkflow where
  workflow_name : String
  run_id : String
  arn : String
deriving Repr, DecidableEq

/-! ## Poll handler embedding (`poll-omics-workflows.py`) -/

/-- Outcome of one `omics.get_run(id=...)` call: either a response carrying
`status`, `startTime`, `stopTime`, `statusMessage` (all already converted to
strings, as the handler does with `str(...)` / `.get(..., '')`), or a raised
exception with its message. -/
inductive GetRunResult where
  | ok (status startTime stopTime statusMessage : String)
  | err (msg : String)
deriving Repr, DecidableEq

/-- One entry of the handler's `workflow_statuses` list. -/
structure WorkflowStatus where
  workflow_name : String
  run_id : String
  status : String
  startTime : String
  stopTime : String
  statusMessage : String
deriving Repr, DecidableEq

/-- The dictionary returned by the poll handler (minus the constant
`statusCode: 200`). -/
structure PollResult where
  run_id : String
  launched_workflows : List LaunchedWorkflow
  workflow_statuses : List WorkflowStatus
  all_complete : Bool
  any_failed : Bool
deriving Repr, DecidableEq

/-- The status strings the poll loop treats as terminal:
`['COMPLETED', 'FAILED', 'CANCELLED']`. -/
def terminalStates : List String := ["COMPLETED", "FAILED", "CANCELLED"]

/-- The status strings the poll loop treats as failures:
`['FAILED', 'CANCELLED']`. -/
def failedStates : List String := ["FAILED", "CANCELLED"]

/-- The body of the handler's `for workflow in launched_workflows` loop.
`o i` is the outcome of the i-th `omics.get_run` call; `statuses`,
`all_complete`, `any_failed` are the mutable accumulators of the source. -/
def pollLoop (o : Nat → GetRunResult) :
    List LaunchedWorkflow → Nat → List WorkflowStatus → Bool → Bool →
    List WorkflowStatus × Bool × Bool
  | [], _, statuses, all_complete, any_failed => (statuses, all_complete, any_failed)
  | w :: rest, i, statuses, all_complete, any_failed =>
    match o i with
    | .ok state t0 t1 msg =>
        pollLoop o rest (i + 1)
          (statuses ++ [⟨w.workflow_name, w.run_id, state, t0, t1, msg⟩])
          (if state ∈ terminalStates then all_complete else false)
          (if state ∈ failedStates then true else any_failed)
    | .err e =>
        pollLoop o rest (i + 1)
          (statuses ++ [⟨w.workflow_name, w.run_id, "UNKNOWN", "", "", "Error: " ++ e⟩])
          all_complete
          true

namespace PollOmics

/-- The poll handler: `handler(event, context)` with
`event = {'run_id': event_run_id, 'launched_workflows': launched_workflows}`
and the `omics.get_run` calls given by the oracle `o` (indexed by call order). -/
def handler (event_run_id : String) (launched_workflows : List LaunchedWorkflow)
    (o : Nat → GetRunResult) : PollResult :=
  let r := pollLoop o launched_workflows 0 [] true false
  ⟨event_run_id, launched_workflows, r.1, r.2.1, r.2.2⟩

end PollOmics

/-! ### Characterisation helpers for the poll loop -/

/-- The `workflow_statuses` row appended for one workflow given its poll
outcome (success row, or the synthesized `UNKNOWN` row of the `except` arm). -/
def pollRow (w : LaunchedWorkflow) : GetRunResult → WorkflowStatus
  | .ok st t0 t1 m => ⟨w.workflow_name, w.run_id, st, t0, t1, m⟩
  | .err e => ⟨w.workflow_name, w.run_id, "UNKNOWN", "", "", "Error: " ++ e⟩

/-- Contribution of one poll outcome to `all_complete`: a successful query
must have returned a terminal status; a failed query leaves `all_complete`
untouched (the `except` arm never clears it). -/
def okTerminal : GetRunResult → Bool
  | .ok st _ _ _ => decide (st ∈ terminalStates)
  | .err _ => true

/-- Contribution of one poll outcome to `any_failed`: a successful query sets
it for `FAILED`/`CANCELLED`; a failed query always sets it. -/
def outcomeFailed : GetRunResult → Bool
  | .ok st _ _ _ => decide (st ∈ failedStates)
  | .err _ => true

/-- The status string recorded in the snapshot for one poll outcome. -/
def snapshotStatus : GetRunResult → String
  | .ok st _ _ _ => st
  | .err _ => "UNKNOWN"

/-- The provider status string of a successful query, `none` on query failure. -/
def okStatus : GetRunResult → Option String
  | .ok st _ _ _ => some st
  | .err _ => none

/-- The rows the poll loop appends for workflows `ws`, with `get_run` calls
starting at index `i`. -/
def pollRows (o : Nat → GetRunResult) : List LaunchedWorkflow → Nat → List WorkflowStatus
  | [], _ => []
  | w :: rest, i => pollRow w (o i) :: pollRows o rest (i + 1)

/-- Conjunction of the `all_complete` contributions over `ws` from index `i`. -/
def allOkTerminal (o : Nat → GetRunResult) : List LaunchedWorkflow → Nat → Bool
  | [], _ => true
  | _ :: rest, i => okTerminal (o i) && allOkTerminal o rest (i + 1)

/-- Disjunction of the `any_failed` contributions over `ws` from index `i`. -/
def anyOutcomeFailed (o : Nat → GetRunResult) : List LaunchedWorkflow → Nat → Bool
  | [], _ => false
  | _ :: rest, i => outcomeFailed (o i) || anyOutcomeFailed o rest (i + 1)

theorem pollLoop_eq (o : Nat → GetRunResult) :
    ∀ (ws : List LaunchedWorkflow) (i : Nat) (acc : List WorkflowStatus) (ac af : Bool),
      pollLoop o ws i acc ac af =
        (acc ++ pollRows o ws i, ac && allOkTerminal o ws i, af || anyOutcomeFailed o ws i)
  | [], i, acc, ac, af => by
    simp [pollLoop, pollRows, allOkTerminal, anyOutcomeFailed]
  | w :: rest, i, acc, ac, af => by
    cases h : o i with
    | ok st t0 t1 msg =>
      by_cases ht : st ∈ terminalStates <;> by_cases hf : st ∈ failedStates <;>
        simp [pollLoop, pollRows, allOkTerminal, anyOutcomeFailed, h, ht, hf,
          pollRow, okTerminal, outcomeFailed,
          pollLoop_eq o rest (i + 1), Bool.and_assoc, Bool.or_assoc]
    | err e =>
      simp [pollLoop, pollRows, allOkTerminal, anyOutcomeFailed, h,
        pollRow, okTerminal, outcomeFailed,
        pollLoop_eq o rest (i + 1), Bool.and_assoc, Bool.or_assoc]

theorem allOkTerminal_iff (o : Nat → GetRunResult) :
    ∀ (ws : List LaunchedWorkflow) (i : Nat),
      allOkTerminal o ws i = true ↔ ∀ k, k < ws.length → okTerminal (o (i + k)) = true
  | [], i => by simp [allOkTerminal]
  | w :: rest, i => by
    rw [allOkTerminal, Bool.and_eq_true, allOkTerminal_iff o rest (i + 1)]
    constructor
    · rintro ⟨h0, hrest⟩ k hk
      cases k with
      | zero => simpa using h0
      | succ k =>
        have := hrest k (by simpa using Nat.lt_of_succ_lt_succ hk)
        have harith : i + 1 + k = i + (k + 1) := by omega
        rwa [harith] at this
    · intro h
      refine ⟨by simpa using h 0 (by simp), fun k hk => ?_⟩
      have := h (k + 1) (by simpa using Nat.succ_lt_succ hk)
      have harith : i + (k + 1) = i + 1 + k := by omega
      rwa [harith] at this

theorem anyOutcomeFailed_iff (o : Nat → GetRunResult) :
    ∀ (ws : List LaunchedWorkflow) (i : Nat),
      anyOutcomeFailed o ws i = true ↔ ∃ k, k < ws.length ∧ outcomeFailed (o (i + k)) = true
  | [], i => by simp [anyOutcomeFailed]
  | w :: rest, i => by
    rw [anyOutcomeFailed, Bool.or_eq_true, anyOutcomeFailed_iff o rest (i + 1)]
    constructor
    · rintro (h0 | ⟨k, hk, hfail⟩)
      · exact ⟨0, by simp, by simpa using h0⟩
      · refine ⟨k + 1, by simpa using Nat.succ_lt_succ hk, ?_⟩
        have harith : i + (k + 1) = i + 1 + k := by omega
        rwa [harith]
    · rintro ⟨k, hk, hfail⟩
      cases k with
      | zero => exact Or.inl (by simpa using hfail)
      | succ k =>
        refine Or.inr ⟨k, by simpa using Nat.lt_of_succ_lt_succ hk, ?_⟩
        have harith : i + 1 + k = i + (k + 1) := by omega
        rw [harith]
        exact hfail

theorem pollRows_map_status (o : Nat → GetRunResult) :
    ∀ (ws : List LaunchedWorkflow) (i : Nat),
      (pollRows o ws i).map WorkflowStatus.status =
        (List.range ws.length).map fun k => snapshotStatus (o (i + k))
  | [], i => by simp [pollRows]
  | w :: rest, i => by
    rw [pollRows, List.map_cons, pollRows_map_status o rest (i + 1),
      List.length_cons, List.range_succ_eq_map, List.map_cons, List.map_map]
    refine congrArg₂ _ ?_ (List.map_congr_left fun k _ => ?_)
    · cases h : o i <;> simp [pollRow, snapshotStatus, h]
    · show snapshotStatus (o (i + 1 + k)) = snapshotStatus (o (i + (k + 1)))
      have harith : i + 1 + k = i + (k + 1) := by omega
      rw [harith]

theorem pollRows_map_ids (o : Nat → GetRunResult) :
    ∀ (ws : List LaunchedWorkflow) (i : Nat),
      (pollRows o ws i).map (fun s => (s.workflow_name, s.run_id)) =
        ws.map fun w => (w.workflow_name, w.run_id)
  | [], i => by simp [pollRows]
  | w :: rest, i => by
    rw [pollRows, List.map_cons, List.map_cons, pollRows_map_ids o rest (i + 1)]
    cases h : o i <;> simp [pollRow]

theorem allOkTerminal_eq_range (o : Nat → GetRunResult) :
    ∀ (ws : List LaunchedWorkflow) (i : Nat),
      allOkTerminal o ws i = (List.range ws.length).all fun k => okTerminal (o (i + k))
  | [], i => by simp [allOkTerminal]
  | w :: rest, i => by
    rw [allOkTerminal, allOkTerminal_eq_range o rest (i + 1),
      List.length_cons, List.range_succ_eq_map, List.all_cons, List.all_map]
    refine congrArg₂ _ (by simp) (congrArg _ ?_)
    funext k
    show okTerminal (o (i + 1 + k)) = okTerminal (o (i + (k + 1)))
    have harith : i + 1 + k = i + (k + 1) := by omega
    rw [harith]

theorem anyOutcomeFailed_eq_range (o : Nat → GetRunResult) :
    ∀ (ws : List LaunchedWorkflow) (i : Nat),
      anyOutcomeFailed o ws i = (List.range ws.length).any fun k => outcomeFailed (o (i + k))
  | [], i => by simp [anyOutcomeFailed]
  | w :: rest, i => by
    rw [anyOutcomeFailed, anyOutcomeFailed_eq_range o rest (i + 1),
      List.length_cons, List.range_succ_eq_map, List.any_cons, List.any_map]
    refine congrArg₂ _ (by simp) (congrArg _ ?_)
    funext k
    show outcomeFailed (o (i + 1 + k)) = outcomeFailed (o (i + (k + 1)))
    have harith : i + 1 + k = i + (k + 1) := by omega
    rw [harith]

/-! ### Poll handler claim theorems -/

/-- **C1 counterexample**: a single job whose status query fails is snapshotted
as `UNKNOWN` — which is not a terminal state — yet the returned `all_complete`
flag is `true`: the `except` arm of the loop never clears `all_complete`. -/
theorem C1_counterexample :
    (PollOmics.handler "run" [⟨"wfA", "r1", "arn1"⟩] (fun _ => .err "boom")).all_complete
        = true ∧
    ((PollOmics.handler "run" [⟨"wfA", "r1", "arn1"⟩]
        (fun _ => .err "boom")).workflow_statuses.map WorkflowStatus.status) = ["UNKNOWN"] ∧
    "UNKNOWN" ∉ terminalStates := by
  decide

/-- **C1 (amended)**: `all_complete` is true iff every *successful* status query
returned a terminal state (`COMPLETED`/`FAILED`/`CANCELLED`); a job whose query
failed (snapshot synthesized as `UNKNOWN`) is ignored by `all_complete` and in
particular does not make it false. -/
theorem C1_amended_all_complete (rid : String) (l : List LaunchedWorkflow)
    (o : Nat → GetRunResult) :
    (PollOmics.handler rid l o).all_complete = true ↔
      ∀ k, k < l.length → okTerminal (o k) = true := by
  show (pollLoop o l 0 [] true false).2.1 = true ↔ _
  rw [pollLoop_eq]
  have h := allOkTerminal_iff o l 0
  simp only [Nat.zero_add] at h
  simpa using h

/-- Witness for `C1_amended_all_complete`: one completed job and one job whose
query failed; `all_complete` is still true. -/
theorem C1_amended_all_complete_check :
    (PollOmics.handler "run" [⟨"wfA", "r1", "arn1"⟩, ⟨"wfB", "r2", "arn2"⟩]
        (fun i => if i = 0 then .ok "COMPLETED" "" "" "done" else .err "boom")).all_complete
      = true :=
  (C1_amended_all_complete "run" _ _).mpr (by decide)

/-- **C3 (confirmed)**: provided the provider never itself returns the literal
status string "UNKNOWN" (the spec states `Unknown` is only synthesized
locally), `any_failed` is true iff some snapshot's status is `FAILED`,
`CANCELLED` or `UNKNOWN`; and a failed status query always forces
`any_failed = true`. -/
theorem C3_any_failed (rid : String) (l : List LaunchedWorkflow) (o : Nat → GetRunResult)
    (h : ∀ k, k < l.length → okStatus (o k) ≠ some "UNKNOWN") :
    ((PollOmics.handler rid l o).any_failed = true ↔
      ∃ s ∈ (PollOmics.handler rid l o).workflow_statuses,
        s.status ∈ ["FAILED", "CANCELLED", "UNKNOWN"]) ∧
    ∀ k, k < l.length → okStatus (o k) = none →
      (PollOmics.handler rid l o).any_failed = true := by
  have hany : (PollOmics.handler rid l o).any_failed = true ↔
      ∃ k, k < l.length ∧ outcomeFailed (o k) = true := by
    show (pollLoop o l 0 [] true false).2.2 = true ↔ _
    rw [pollLoop_eq]
    have h0 := anyOutcomeFailed_iff o l 0
    simp only [Nat.zero_add] at h0
    simpa using h0
  have hstatuses : (PollOmics.handler rid l o).workflow_statuses = pollRows o l 0 := by
    show (pollLoop o l 0 [] true false).1 = _
    rw [pollLoop_eq]
    simp
  have hmem : (∃ s ∈ pollRows o l 0, s.status ∈ ["FAILED", "CANCELLED", "UNKNOWN"]) ↔
      ∃ k, k < l.length ∧ snapshotStatus (o k) ∈ ["FAILED", "CANCELLED", "UNKNOWN"] := by
    constructor
    · rintro ⟨s, hs, hU⟩
      have hmap : s.status ∈ (pollRows o l 0).map WorkflowStatus.status :=
        List.mem_map_of_mem _ hs
      rw [pollRows_map_status] at hmap
      rcases List.mem_map.mp hmap with ⟨k, hk, hkeq⟩
      refine ⟨k, List.mem_range.mp hk, ?_⟩
      have : snapshotStatus (o (0 + k)) = s.status := hkeq
      simp only [Nat.zero_add] at this
      rw [this]
      exact hU
    · rintro ⟨k, hk, hU⟩
      have hmap : snapshotStatus (o k) ∈ (pollRows o l 0).map WorkflowStatus.status := by
        rw [pollRows_map_status]
        exact List.mem_map.mpr ⟨k, List.mem_range.mpr hk, by simp⟩
      rcases List.mem_map.mp hmap with ⟨s, hs, hkeq⟩
      exact ⟨s, hs, by rw [hkeq]; exact hU⟩
  have hpoint : ∀ k, k < l.length →
      (outcomeFailed (o k) = true ↔
        snapshotStatus (o k) ∈ ["FAILED", "CANCELLED", "UNKNOWN"]) := by
    intro k hk
    cases hco : o k with
    | ok st t0 t1 m =>
      have hne : st ≠ "UNKNOWN" := by
        have hh := h k hk
        rw [hco] at hh
        simpa [okStatus] using hh
      by_cases hF : st = "FAILED" <;> by_cases hC : st = "CANCELLED" <;>
        simp [outcomeFailed, snapshotStatus, failedStates, hF, hC, hne]
    | err e => simp [outcomeFailed, snapshotStatus]
  constructor
  · rw [hany, hstatuses, hmem]
    constructor
    · rintro ⟨k, hk, hf⟩
      exact ⟨k, hk, (hpoint k hk).mp hf⟩
    · rintro ⟨k, hk, hU⟩
      exact ⟨k, hk, (hpoint k hk).mpr hU⟩
  · intro k hk hnone
    rw [hany]
    refine ⟨k, hk, ?_⟩
    cases hco : o k with
    | ok st t0 t1 m => rw [hco] at hnone; simp [okStatus] at hnone
    | err e => simp [outcomeFailed]

/-- Witness for `C3_any_failed`: one completed job and one job whose status
query failed; the failed query makes `any_failed` true. -/
theorem C3_any_failed_check :
    (PollOmics.handler "run" [⟨"wfA", "r1", "arn1"⟩, ⟨"wfB", "r2", "arn2"⟩]
        (fun i => if i = 0 then .ok "COMPLETED" "" "" "done" else .err "boom")).any_failed
      = true :=
  (C3_any_failed "run" [⟨"wfA", "r1", "arn1"⟩, ⟨"wfB", "r2", "arn2"⟩]
      (fun i => if i = 0 then .ok "COMPLETED" "" "" "done" else .err "boom")
      (by decide)).2 1 (by decide) (by decide)

/-- **C9 counterexample**: an unrecognized provider status string is not mapped
to `UNKNOWN`: the raw string is propagated into the returned snapshot, and the
job is classified as merely non-terminal and non-failed. -/
theorem C9_counterexample :
    ((PollOmics.handler "run" [⟨"wfA", "r1", "arn1"⟩]
        (fun _ => .ok "SOME_NEW_STATE" "" "" "")).workflow_statuses.map
          WorkflowStatus.status) = ["SOME_NEW_STATE"] ∧
    (PollOmics.handler "run" [⟨"wfA", "r1", "arn1"⟩]
        (fun _ => .ok "SOME_NEW_STATE" "" "" "")).all_complete = false ∧
    (PollOmics.handler "run" [⟨"wfA", "r1", "arn1"⟩]
        (fun _ => .ok "SOME_NEW_STATE" "" "" "")).any_failed = false := by
  decide

/-- **C9 (amended)**: the poller performs no mapping onto a closed enum: each
snapshot carries the raw provider status string unchanged, with the literal
string "UNKNOWN" synthesized only on query failure; `all_complete` and
`any_failed` classify the raw string by membership in the terminal / failed
string lists (an unrecognized string counts as non-terminal and non-failed). -/
theorem C9_amended_raw_strings (rid : String) (l : List LaunchedWorkflow)
    (o : Nat → GetRunResult) :
    (PollOmics.handler rid l o).workflow_statuses.map WorkflowStatus.status =
      ((List.range l.length).map fun k => snapshotStatus (o k)) ∧
    (PollOmics.handler rid l o).all_complete =
      ((List.range l.length).all fun k => okTerminal (o k)) ∧
    (PollOmics.handler rid l o).any_failed =
      ((List.range l.length).any fun k => outcomeFailed (o k)) := by
  have h1 := pollRows_map_status o l 0
  have h2 := allOkTerminal_eq_range o l 0
  have h3 := anyOutcomeFailed_eq_range o l 0
  simp only [Nat.zero_add] at h1 h2 h3
  refine ⟨?_, ?_, ?_⟩
  · show (pollLoop o l 0 [] true false).1.map WorkflowStatus.status = _
    rw [pollLoop_eq]
    simpa using h1
  · show (pollLoop o l 0 [] true false).2.1 = _
    rw [pollLoop_eq]
    simpa using h2
  · show (pollLoop o l 0 [] true false).2.2 = _
    rw [pollLoop_eq]
    simpa using h3

/-- **C10 (confirmed)**: the poll handler echoes the input `run_id` and
`launched_workflows` unchanged, and `workflow_statuses` has exactly one row per
input job, in input order, carrying that job's `workflow_name` and `run_id`. -/
theorem C10_output_shape (rid : String) (l : List LaunchedWorkflow)
    (o : Nat → GetRunResult) :
    (PollOmics.handler rid l o).run_id = rid ∧
    (PollOmics.handler rid l o).launched_workflows = l ∧
    (PollOmics.handler rid l o).workflow_statuses.length = l.length ∧
    (PollOmics.handler rid l o).workflow_statuses.map
        (fun s => (s.workflow_name, s.run_id)) =
      l.map fun w => (w.workflow_name, w.run_id) := by
  have hids := pollRows_map_ids o l 0
  have hstatuses : (PollOmics.handler rid l o).workflow_statuses = pollRows o l 0 := by
    show (pollLoop o l 0 [] true false).1 = _
    rw [pollLoop_eq]
    simp
  have hlen : (pollRows o l 0).length = l.length := by
    have := congrArg List.length hids
    simpa using this
  exact ⟨rfl, rfl, by rw [hstatuses, hlen], by rw [hstatuses, hids]⟩

/-! ## Launch handler embedding (`launch-omics-workflows.py`) -/

/-- One entry of `config['workflows']` in the DynamoDB config item. -/
structure WorkflowConfig where
  name : String
  arn : String
deriving Repr, DecidableEq

/-- The `config` item `table.get_item(Key={'id': 'workflows'})['Item']`. -/
structure Config where
  workflows : List WorkflowConfig
  omics_role : String
  run_group : String
deriving Repr, DecidableEq

/-- The `omics.start_run` response fields the handler reads. -/
structure RunResponse where
  id : String
  arn : String
deriving Repr, DecidableEq

/-- A raised client error, with its `e.response['Error']['Code']` (empty when
absent) and message. -/
structure ApiError where
  code : String
  msg : String
deriving Repr, DecidableEq

/-- Outcome of one call of a function passed to `retry_with_backoff`. -/
inductive CallOutcome (α : Type) where
  | ok (val : α)
  | err (e : ApiError)
deriving Repr, DecidableEq

/-- The error codes classified as throttling:
`['ThrottlingException', 'TooManyRequestsException']`. -/
def throttlingCodes : List String := ["ThrottlingException", "TooManyRequestsException"]

/-- `error_code in ['ThrottlingException', 'TooManyRequestsException']`. -/
def isThrottling (e : ApiError) : Bool := decide (e.code ∈ throttlingCodes)

/-- Default `max_retries` of `retry_with_backoff`. -/
def max_retries_default : Nat := 5

/-- Default `base_delay` of `retry_with_backoff`. -/
def base_delay_default : ℚ := 1

/-- `launch_delay = 10` seconds between workflow launches. -/
def launch_delay : Nat := 10

/-- The `for attempt in range(max_retries)` loop of `retry_with_backoff`,
positioned at iteration `attempt` with `remaining` iterations left
(`attempt + remaining = max_retries` at the top-level call).  Returns the list
of back-off sleep durations performed and `some` of the final outcome;
`none` models falling off the loop, reachable only for `max_retries = 0`. -/
def retryAux {α : Type} (calls : Nat → CallOutcome α) (jitter : Nat → ℚ)
    (base_delay : ℚ) (max_retries : Nat) :
    Nat → Nat → List ℚ × Option (Except ApiError α)
  | _, 0 => ([], none)
  | attempt, remaining + 1 =>
    match calls attempt with
    | .ok v => ([], some (.ok v))
    | .err e =>
      if isThrottling e then
        if attempt < max_retries - 1 then
          let delay := base_delay * 2 ^ attempt + jitter attempt
          let r := retryAux calls jitter base_delay max_retries (attempt + 1) remaining
          (delay :: r.1, r.2)
        else ([], some (.error e))
      else ([], some (.error e))

/-- `retry_with_backoff(func, max_retries, base_delay)`: `calls n` is the
outcome of the n-th invocation of `func` (0-indexed), `jitter n` the n-th
`random.uniform(0, 1)` draw.  Returns the back-off sleeps performed and the
result (value returned, or exception re-raised). -/
def retry_with_backoff {α : Type} (calls : Nat → CallOutcome α) (jitter : Nat → ℚ)
    (max_retries : Nat) (base_delay : ℚ) : List ℚ × Option (Except ApiError α) :=
  retryAux calls jitter base_delay max_retries 0 max_retries

/-- Classification of one call outcome: transient (retried) iff it is an error
whose code is a throttling code. -/
def isTransient {α : Type} : CallOutcome α → Bool
  | .ok _ => false
  | .err e => isThrottling e

theorem retryAux_ok {α : Type} (calls : Nat → CallOutcome α) (jitter : Nat → ℚ)
    (b : ℚ) (n attempt r : Nat) (v : α) (h : calls attempt = .ok v) :
    retryAux calls jitter b n attempt (r + 1) = ([], some (.ok v)) := by
  simp [retryAux, h]

theorem retryAux_fatal {α : Type} (calls : Nat → CallOutcome α) (jitter : Nat → ℚ)
    (b : ℚ) (n attempt r : Nat) (e : ApiError) (h : calls attempt = .err e)
    (hth : isThrottling e = false) :
    retryAux calls jitter b n attempt (r + 1) = ([], some (.error e)) := by
  simp [retryAux, h, hth]

theorem retryAux_exhausted {α : Type} (calls : Nat → CallOutcome α) (jitter : Nat → ℚ)
    (b : ℚ) (n attempt r : Nat) (e : ApiError) (h : calls attempt = .err e)
    (hth : isThrottling e = true) (hlast : ¬ attempt < n - 1) :
    retryAux calls jitter b n attempt (r + 1) = ([], some (.error e)) := by
  simp [retryAux, h, hth, hlast]

theorem retryAux_throttled {α : Type} (calls : Nat → CallOutcome α) (jitter : Nat → ℚ)
    (b : ℚ) (n attempt r : Nat) (e : ApiError) (h : calls attempt = .err e)
    (hth : isThrottling e = true) (hmore : attempt < n - 1) :
    retryAux calls jitter b n attempt (r + 1) =
      ((b * 2 ^ attempt + jitter attempt) :: (retryAux calls jitter b n (attempt + 1) r).1,
       (retryAux calls jitter b n (attempt + 1) r).2) := by
  simp [retryAux, h, hth, hmore]

theorem retryAux_transient_run {α : Type} (calls : Nat → CallOutcome α) (jitter : Nat → ℚ)
    (b : ℚ) (n : Nat) :
    ∀ (k attempt remaining : Nat), attempt + remaining = n → attempt + k < n →
      (∀ i, attempt ≤ i → i < attempt + k → isTransient (calls i) = true) →
      retryAux calls jitter b n attempt remaining =
        (((List.range k).map fun j => b * 2 ^ (attempt + j) + jitter (attempt + j)) ++
            (retryAux calls jitter b n (attempt + k) (remaining - k)).1,
         (retryAux calls jitter b n (attempt + k) (remaining - k)).2)
  | 0, attempt, remaining => by
    intro hsum hlt htrans
    simp
  | k + 1, attempt, remaining => by
    intro hsum hlt htrans
    obtain ⟨r, rfl⟩ : ∃ r, remaining = r + 1 := ⟨remaining - 1, by omega⟩
    have htr0 : isTransient (calls attempt) = true := htrans attempt le_rfl (by omega)
    cases hco : calls attempt with
    | ok v =>
      rw [hco] at htr0
      simp [isTransient] at htr0
    | err e =>
      have hth : isThrottling e = true := by
        rw [hco] at htr0
        simpa [isTransient] using htr0
      have hmore : attempt < n - 1 := by omega
      rw [retryAux_throttled calls jitter b n attempt r e hco hth hmore]
      have ih := retryAux_transient_run calls jitter b n k (attempt + 1) r
        (by omega) (by omega) (fun i hi1 hi2 => htrans i (by omega) (by omega))
      have hidx : attempt + 1 + k = attempt + (k + 1) := by omega
      have hrem : r - k = r + 1 - (k + 1) := by omega
      rw [hidx, hrem] at ih
      rw [ih]
      have hlist : (b * 2 ^ attempt + jitter attempt) ::
            ((List.range k).map fun j => b * 2 ^ (attempt + 1 + j) + jitter (attempt + 1 + j)) =
          (List.range (k + 1)).map fun j => b * 2 ^ (attempt + j) + jitter (attempt + j) := by
        rw [List.range_succ_eq_map, List.map_cons, List.map_map]
        refine congrArg₂ _ (by simp) (List.map_congr_left fun j _ => ?_)
        show b * 2 ^ (attempt + 1 + j) + jitter (attempt + 1 + j) =
          b * 2 ^ (attempt + (j + 1)) + jitter (attempt + (j + 1))
        have harith : attempt + 1 + j = attempt + (j + 1) := by omega
        rw [harith]
      refine congrArg₂ _ ?_ rfl
      rw [← hlist, List.cons_append]

/-- **C5 (confirmed)**: per-job retry policy of `retry_with_backoff` with
`max_retries = n` and `base_delay = b`: a run of `k < n` transient (throttling)
errors followed by success returns the success after back-off delays
`b * 2^0 + jitter, …, b * 2^(k-1) + jitter`; a non-transient error after `k`
transient ones propagates immediately with no further retry; `n` transient
errors exhaust the attempts and propagate the last error after `n - 1`
back-off delays. -/
theorem C5_retry_policy {α : Type} (calls : Nat → CallOutcome α) (jitter : Nat → ℚ)
    (n : Nat) (b : ℚ) :
    (∀ k v, k < n → (∀ i, i < k → isTransient (calls i) = true) → calls k = .ok v →
        retry_with_backoff calls jitter n b =
          (((List.range k).map fun i => b * 2 ^ i + jitter i), some (.ok v))) ∧
    (∀ k e, k < n → (∀ i, i < k → isTransient (calls i) = true) → calls k = .err e →
        isThrottling e = false →
        retry_with_backoff calls jitter n b =
          (((List.range k).map fun i => b * 2 ^ i + jitter i), some (.error e))) ∧
    (∀ e, 0 < n → (∀ i, i < n → isTransient (calls i) = true) → calls (n - 1) = .err e →
        retry_with_backoff calls jitter n b =
          (((List.range (n - 1)).map fun i => b * 2 ^ i + jitter i), some (.error e))) := by
  have hrun : ∀ k, k < n → (∀ i, i < k → isTransient (calls i) = true) →
      retry_with_backoff calls jitter n b =
        (((List.range k).map fun i => b * 2 ^ i + jitter i) ++
            (retryAux calls jitter b n k (n - k)).1,
         (retryAux calls jitter b n k (n - k)).2) := by
    intro k hk htrans
    have h := retryAux_transient_run calls jitter b n k 0 n (by omega) (by omega)
      (fun i hi1 hi2 => htrans i (by omega))
    rw [retry_with_backoff, h]
    refine congrArg₂ _ (congrArg₂ _ (List.map_congr_left fun j _ => ?_) ?_) ?_
    · show b * 2 ^ (0 + j) + jitter (0 + j) = b * 2 ^ j + jitter j
      rw [Nat.zero_add]
    · rw [Nat.zero_add]
    · rw [Nat.zero_add]
  refine ⟨?_, ?_, ?_⟩
  · intro k v hk htrans hco
    obtain ⟨r, hr⟩ : ∃ r, n - k = r + 1 := ⟨n - k - 1, by omega⟩
    rw [hrun k hk htrans, hr, retryAux_ok calls jitter b n k r v hco]
    simp
  · intro k e hk htrans hco hth
    obtain ⟨r, hr⟩ : ∃ r, n - k = r + 1 := ⟨n - k - 1, by omega⟩
    rw [hrun k hk htrans, hr, retryAux_fatal calls jitter b n k r e hco hth]
    simp
  · intro e hn htrans hco
    have hth : isThrottling e = true := by
      have := htrans (n - 1) (by omega)
      rw [hco] at this
      simpa [isTransient] using this
    have hone : n - (n - 1) = 0 + 1 := by omega
    rw [hrun (n - 1) (by omega) (fun i hi => htrans i (by omega)), hone,
      retryAux_exhausted calls jitter b n (n - 1) 0 e hco hth (by omega)]
    simp

/-- Concrete call sequence for the retry-policy witness: two throttling errors,
then success. -/
def exampleRetryCalls : Nat → CallOutcome RunResponse :=
  fun i => if i < 2 then .err ⟨"ThrottlingException", "Rate exceeded"⟩
    else .ok ⟨"run-1", "arn-1"⟩

/-- Witness for `C5_retry_policy`: with the default ceiling 5 and base delay 1
(and zero jitter), two throttling errors followed by success yield back-off
delays `[1, 2]` and the successful response. -/
theorem C5_retry_policy_check :
    retry_with_backoff exampleRetryCalls (fun _ => 0) 5 1 =
      ([1, 2], some (.ok ⟨"run-1", "arn-1"⟩)) := by
  have h := (C5_retry_policy exampleRetryCalls (fun _ => 0) 5 1).1 2 ⟨"run-1", "arn-1"⟩
    (by omega) (by decide) (by decide)
  rw [h]
  simp [List.range_succ]

/-- The arguments the handler passes to `omics.start_run` for one workflow
(tags flattened: `run_id`, `workflow`, `start_time`). -/
structure StartRunCall where
  workflowId : String
  name : String
  roleArn : String
  param_input : String
  param_outdir : String
  outputUri : String
  runGroupId : String
  tag_run_id : String
  tag_workflow : String
  tag_start_time : String
deriving Repr, DecidableEq

/-- `f'samplesheet_{workflow_name}.csv'`. -/
def samplesheetKey (workflow_name : String) : String :=
  "samplesheet_" ++ workflow_name ++ ".csv"

/-- The `omics.start_run` argument record built for one workflow:
`workflowId = workflow_arn.split('/')[-1]`, `name = f"{workflow_name}-{run_id}"`;
the current timestamp `now` (`datetime.now().isoformat()`) flows only into the
`start_time` tag. -/
def buildStartRunCall (bucket output_bucket run_id : String) (config : Config)
    (wf : WorkflowConfig) (now : String) : StartRunCall :=
  ⟨(wf.arn.splitOn "/").getLastD "",
   wf.name ++ "-" ++ run_id,
   config.omics_role,
   "s3://" ++ bucket ++ "/" ++ run_id ++ "/" ++ samplesheetKey wf.name,
   "s3://" ++ output_bucket ++ "/" ++ run_id ++ "/" ++ wf.name ++ "/",
   "s3://" ++ output_bucket ++ "/" ++ run_id ++ "/" ++ wf.name ++ "/",
   config.run_group,
   run_id,
   wf.name,
   now⟩

/-- Observable events of the launch handler, in program order: skip of a
workflow without samplesheet, fixed inter-launch sleep, `start_run` attempt
(with the closure's fixed arguments), back-off sleep inside
`retry_with_backoff`, successful launch (record appended to
`launched_workflows`), failed launch (exception caught, loop continues). -/
inductive LaunchEvent where
  | skipped (workflow_name : String)
  | wait (seconds : Nat)
  | attempt (call : StartRunCall)
  | backoff (seconds : ℚ)
  | launched (w : LaunchedWorkflow)
  | failed (workflow_name : String)
deriving Repr, DecidableEq

/-- The inputs of one launch-handler invocation: the event fields read, the
DynamoDB config item, the manifest's key set, and oracles for the
`omics.start_run` outcomes (`starts idx attempt`), the jitter draws
(`jitter idx attempt`), and `datetime.now().isoformat()` at each workflow's
launch. -/
structure LaunchEnv where
  bucket : String
  output_bucket : String
  run_id : String
  config : Config
  manifestKeys : List String
  starts : Nat → Nat → CallOutcome RunResponse
  jitter : Nat → Nat → ℚ
  now : Nat → String

/-- The `for idx, workflow in enumerate(config['workflows'])` loop, over the
remaining `(idx, workflow)` pairs, carrying the accumulated
`launched_workflows`.  Returns the event trace and the final
`launched_workflows` list. -/
def launchLoop (env : LaunchEnv) :
    List (Nat × WorkflowConfig) → List LaunchedWorkflow →
    List LaunchEvent × List LaunchedWorkflow
  | [], launched_workflows => ([], launched_workflows)
  | (idx, wf) :: rest, launched_workflows =>
    if samplesheetKey wf.name ∈ env.manifestKeys then
      let waitEvents : List LaunchEvent :=
        if 0 < idx ∧ launched_workflows ≠ [] then [LaunchEvent.wait launch_delay] else []
      let call := buildStartRunCall env.bucket env.output_bucket env.run_id env.config
        wf (env.now idx)
      let r := retry_with_backoff (env.starts idx) (env.jitter idx)
        max_retries_default base_delay_default
      match r.2 with
      | some (.ok resp) =>
        let w : LaunchedWorkflow := ⟨wf.name, resp.id, resp.arn⟩
        let rest' := launchLoop env rest (launched_workflows ++ [w])
        (waitEvents ++
          (LaunchEvent.attempt call ::
            (r.1.map LaunchEvent.backoff ++ (LaunchEvent.launched w :: rest'.1))),
         rest'.2)
      | _ =>
        let rest' := launchLoop env rest launched_workflows
        (waitEvents ++
          (LaunchEvent.attempt call ::
            (r.1.map LaunchEvent.backoff ++ (LaunchEvent.failed wf.name :: rest'.1))),
         rest'.2)
    else
      let rest' := launchLoop env rest launched_workflows
      (LaunchEvent.skipped wf.name :: rest'.1, rest'.2)

/-- The dictionary returned on the success path (minus `statusCode: 200`). -/
structure LaunchResult where
  run_id : String
  launched_workflows : List LaunchedWorkflow
  workflow_count : Nat
deriving Repr, DecidableEq

/-- The message of the final `raise Exception(...)`. -/
def noWorkflowsMsg : String := "No workflows were launched. Check samplesheet availability."

/-- The final `launched_workflows` of one handler invocation. -/
def launchedOf (env : LaunchEnv) : List LaunchedWorkflow :=
  (launchLoop env env.config.workflows.enum []).2

namespace LaunchOmics

/-- The launch handler: iterates `enumerate(config['workflows'])`, launching
each workflow whose samplesheet key is in the manifest, then raises the
no-workflows exception iff `launched_workflows` ended empty, else returns the
result dictionary. -/
def handler (env : LaunchEnv) : List LaunchEvent × Except String LaunchResult :=
  let r := launchLoop env env.config.workflows.enum []
  (r.1, if r.2 = [] then Except.error noWorkflowsMsg
    else Except.ok ⟨env.run_id, r.2, r.2.length⟩)

end LaunchOmics

/-! ### Characterisation helpers for the launch loop -/

/-- The launched record produced for enumerated workflow `p` iff its
retry-wrapped `start_run` succeeds. -/
def launchSuccess (env : LaunchEnv) (p : Nat × WorkflowConfig) : Option LaunchedWorkflow :=
  match (retry_with_backoff (env.starts p.1) (env.jitter p.1)
      max_retries_default base_delay_default).2 with
  | some (.ok resp) => some ⟨p.2.name, resp.id, resp.arn⟩
  | _ => none

/-- `launchSuccess` gated on the samplesheet key being present in the
manifest. -/
def selectedLaunch (env : LaunchEnv) (p : Nat × WorkflowConfig) : Option LaunchedWorkflow :=
  if samplesheetKey p.2.name ∈ env.manifestKeys then launchSuccess env p else none

/-- The trace block of one enumerated workflow, given whether any earlier
workflow already launched successfully (`anyPrior`): a skip marker when the
samplesheet key is absent; otherwise an inter-launch wait exactly when the
config index is positive *and* `anyPrior`, then the attempt, its back-off
sleeps, and the launched/failed marker. -/
def launchBlock (env : LaunchEnv) (p : Nat × WorkflowConfig) (anyPrior : Bool) :
    List LaunchEvent :=
  if samplesheetKey p.2.name ∈ env.manifestKeys then
    (if 0 < p.1 ∧ anyPrior = true then [LaunchEvent.wait launch_delay] else []) ++
      (LaunchEvent.attempt (buildStartRunCall env.bucket env.output_bucket env.run_id
          env.config p.2 (env.now p.1)) ::
        ((retry_with_backoff (env.starts p.1) (env.jitter p.1)
            max_retries_default base_delay_default).1.map LaunchEvent.backoff ++
          (match launchSuccess env p with
           | some w => [LaunchEvent.launched w]
           | none => [LaunchEvent.failed p.2.name])))
  else [LaunchEvent.skipped p.2.name]

/-- Reference paced trace, per the amended pacing claim: blocks in config
order, the prior-success flag threaded from the per-workflow outcomes. -/
def pacedTrace (env : LaunchEnv) : List (Nat × WorkflowConfig) → Bool → List LaunchEvent
  | [], _ => []
  | p :: rest, anyPrior =>
    launchBlock env p anyPrior ++
      pacedTrace env rest (anyPrior || (selectedLaunch env p).isSome)

theorem launchLoop_eq (env : LaunchEnv) :
    ∀ (ws : List (Nat × WorkflowConfig)) (launched : List LaunchedWorkflow),
      launchLoop env ws launched =
        (pacedTrace env ws (decide (launched ≠ [])),
         launched ++ ws.filterMap (selectedLaunch env))
  | [], launched => by simp [launchLoop, pacedTrace]
  | (idx, wf) :: rest, launched => by
    have ihgen := launchLoop_eq env rest
    by_cases hkey : samplesheetKey wf.name ∈ env.manifestKeys
    · have hsel : selectedLaunch env (idx, wf) = launchSuccess env (idx, wf) := by
        simp [selectedLaunch, hkey]
      cases hr : (retry_with_backoff (env.starts idx) (env.jitter idx)
          max_retries_default base_delay_default).2 with
      | none =>
        have hls : launchSuccess env (idx, wf) = none := by simp [launchSuccess, hr]
        simp [launchLoop, hkey, hr, ihgen, pacedTrace, launchBlock, hls, hsel,
          List.filterMap_cons, List.append_assoc]
      | some exc =>
        cases exc with
        | ok resp =>
          have hls : launchSuccess env (idx, wf) =
              some ⟨wf.name, resp.id, resp.arn⟩ := by
            simp [launchSuccess, hr]
          simp [launchLoop, hkey, hr, ihgen, pacedTrace, launchBlock, hls, hsel,
            List.filterMap_cons, List.append_assoc]
        | error e =>
          have hls : launchSuccess env (idx, wf) = none := by simp [launchSuccess, hr]
          simp [launchLoop, hkey, hr, ihgen, pacedTrace, launchBlock, hls, hsel,
            List.filterMap_cons, List.append_assoc]
    · have hsel : selectedLaunch env (idx, wf) = none := by simp [selectedLaunch, hkey]
      simp [launchLoop, hkey, ihgen, pacedTrace, launchBlock, hsel, List.filterMap_cons]

/-- The workflow name of a skip event. -/
def skippedNameOf : LaunchEvent → Option String
  | .skipped n => some n
  | _ => none

/-- The workflow name (the `workflow` tag) of a `start_run` attempt event. -/
def attemptNameOf : LaunchEvent → Option String
  | .attempt c => some c.tag_workflow
  | _ => none

/-- The duration of an inter-launch wait event. -/
def waitSecondsOf : LaunchEvent → Option Nat
  | .wait s => some s
  | _ => none

theorem enumFrom_map_snd {α : Type} : ∀ (n : Nat) (l : List α),
    (List.enumFrom n l).map Prod.snd = l
  | _, [] => rfl
  | n, a :: l => by simp [List.enumFrom, enumFrom_map_snd (n + 1) l]

theorem backoffs_filterMap_none {β : Type} (f : LaunchEvent → Option β)
    (h : ∀ q, f (LaunchEvent.backoff q) = none) (ds : List ℚ) :
    (ds.map LaunchEvent.backoff).filterMap f = [] := by
  induction ds with
  | nil => rfl
  | cons d rest ih => simp [h, ih]

theorem pacedTrace_filterMap_attempt (env : LaunchEnv) :
    ∀ (ws : List (Nat × WorkflowConfig)) (flag : Bool),
      (pacedTrace env ws flag).filterMap attemptNameOf =
        ((ws.map Prod.snd).filter fun wf =>
          decide (samplesheetKey wf.name ∈ env.manifestKeys)).map WorkflowConfig.name
  | [], flag => rfl
  | (idx, wf) :: rest, flag => by
    by_cases hkey : samplesheetKey wf.name ∈ env.manifestKeys
    · cases hls : launchSuccess env (idx, wf) with
      | some w =>
        by_cases hw : 0 < idx ∧ flag = true <;>
          simp [pacedTrace, launchBlock, hkey, hls, hw, attemptNameOf,
            backoffs_filterMap_none attemptNameOf (fun _ => rfl),
            pacedTrace_filterMap_attempt env rest, buildStartRunCall]
      | none =>
        by_cases hw : 0 < idx ∧ flag = true <;>
          simp [pacedTrace, launchBlock, hkey, hls, hw, attemptNameOf,
            backoffs_filterMap_none attemptNameOf (fun _ => rfl),
            pacedTrace_filterMap_attempt env rest, buildStartRunCall]
    · simp [pacedTrace, launchBlock, hkey, attemptNameOf,
        pacedTrace_filterMap_attempt env rest]

theorem pacedTrace_filterMap_skipped (env : LaunchEnv) :
    ∀ (ws : List (Nat × WorkflowConfig)) (flag : Bool),
      (pacedTrace env ws flag).filterMap skippedNameOf =
        ((ws.map Prod.snd).filter fun wf =>
          !decide (samplesheetKey wf.name ∈ env.manifestKeys)).map WorkflowConfig.name
  | [], flag => rfl
  | (idx, wf) :: rest, flag => by
    by_cases hkey : samplesheetKey wf.name ∈ env.manifestKeys
    · cases hls : launchSuccess env (idx, wf) with
      | some w =>
        by_cases hw : 0 < idx ∧ flag = true <;>
          simp [pacedTrace, launchBlock, hkey, hls, hw, skippedNameOf,
            backoffs_filterMap_none skippedNameOf (fun _ => rfl),
            pacedTrace_filterMap_skipped env rest]
      | none =>
        by_cases hw : 0 < idx ∧ flag = true <;>
          simp [pacedTrace, launchBlock, hkey, hls, hw, skippedNameOf,
            backoffs_filterMap_none skippedNameOf (fun _ => rfl),
            pacedTrace_filterMap_skipped env rest]
    · simp [pacedTrace, launchBlock, hkey, skippedNameOf,
        pacedTrace_filterMap_skipped env rest]

deriving instance DecidableEq for Except

/-- Inputs exhibiting the pacing gap: two configured workflows with
samplesheets present, the first launch failing fatally, the second
succeeding. -/
def pacingEnv : LaunchEnv :=
  ⟨"in-bucket", "out-bucket", "run-1",
   ⟨[⟨"mag", "arn:aws:omics:us-east-1:123:workflow/mag-1"⟩,
     ⟨"metatdenovo", "arn:aws:omics:us-east-1:123:workflow/meta-1"⟩], "role", "rg"⟩,
   [samplesheetKey "mag", samplesheetKey "metatdenovo"],
   fun idx _ => if idx = 0 then .err ⟨"AccessDeniedException", "denied"⟩
     else .ok ⟨"id-2", "arn-2"⟩,
   fun _ _ => 0,
   fun _ => "2024-01-01T00:00:00"⟩

/-- **C2 counterexample**: with two jobs to launch where the first launch
attempt fails fatally, both jobs are attempted back to back with *no*
inter-launch wait between them — the sleep is guarded by `launched_workflows`
being non-empty, not by a preceding attempt. -/
theorem C2_counterexample :
    (LaunchOmics.handler pacingEnv).1.filterMap attemptNameOf = ["mag", "metatdenovo"] ∧
    (LaunchOmics.handler pacingEnv).1.filterMap waitSecondsOf = [] := by
  decide

/-- **C2 (amended)**: the launcher's full event trace equals the reference
paced trace in which the fixed 10-second inter-launch wait precedes an attempt
iff the workflow's config index is positive *and* some earlier workflow was
already launched successfully; in particular the first attempted workflow is
never preceded by a wait, and after failed or exhausted attempts with no prior
success the next attempt starts immediately. -/
theorem C2_amended_pacing (env : LaunchEnv) :
    (LaunchOmics.handler env).1 = pacedTrace env env.config.workflows.enum false := by
  show (launchLoop env env.config.workflows.enum []).1 = _
  rw [launchLoop_eq]
  simp

/-- Inputs with an empty workflow configuration: nothing to launch. -/
def emptyEnv : LaunchEnv :=
  ⟨"in-bucket", "out-bucket", "run-1", ⟨[], "role", "rg"⟩, [],
   fun _ _ => .ok ⟨"id", "arn"⟩, fun _ _ => 0, fun _ => "2024-01-01T00:00:00"⟩

/-- **C4 counterexample**: with an empty input (no configured workflows, hence
no job specs to launch) the handler does not return an empty result — it still
raises the no-workflows exception. -/
theorem C4_counterexample :
    (LaunchOmics.handler emptyEnv).2 = Except.error noWorkflowsMsg := by
  decide

/-- **C4 (amended)**: the handler raises the no-workflows exception iff *no*
enumerated workflow both had its samplesheet present and launched successfully
— including when the input was empty or every workflow was skipped; otherwise
it returns the non-empty launched list together with its count. -/
theorem C4_amended_error_iff (env : LaunchEnv) :
    ((LaunchOmics.handler env).2 = Except.error noWorkflowsMsg ↔
      ∀ p ∈ env.config.workflows.enum, selectedLaunch env p = none) ∧
    (launchedOf env ≠ [] →
      (LaunchOmics.handler env).2 =
        Except.ok ⟨env.run_id, launchedOf env, (launchedOf env).length⟩) := by
  have hl : launchedOf env = env.config.workflows.enum.filterMap (selectedLaunch env) := by
    show (launchLoop env env.config.workflows.enum []).2 = _
    rw [launchLoop_eq]
    simp
  constructor
  · show (if (launchLoop env env.config.workflows.enum []).2 = [] then _ else _) = _ ↔ _
    rw [show (launchLoop env env.config.workflows.enum []).2 = launchedOf env from rfl, hl]
    by_cases hnil : env.config.workflows.enum.filterMap (selectedLaunch env) = []
    · simp only [hnil, if_pos rfl]
      simp [List.filterMap_eq_nil_iff] at hnil
      simpa using hnil
    · rw [if_neg hnil]
      rw [List.filterMap_eq_nil_iff] at hnil
      simp only [iff_false_intro hnil]
      simp
  · intro hne
    show (if (launchLoop env env.config.workflows.enum []).2 = [] then _ else _) = _
    rw [show (launchLoop env env.config.workflows.enum []).2 = launchedOf env from rfl,
      if_neg hne]

/-- Witness for `C4_amended_error_iff`: one workflow launched successfully, so
the handler returns the non-empty result instead of the exception. -/
theorem C4_amended_error_iff_check :
    (LaunchOmics.handler pacingEnv).2 =
      Except.ok ⟨pacingEnv.run_id, launchedOf pacingEnv, (launchedOf pacingEnv).length⟩ :=
  (C4_amended_error_iff pacingEnv).2 (by decide)

/-- **C6 (confirmed)**: the final `launched_workflows` list contains exactly
the enumerated workflows whose samplesheet key was present *and* whose
retry-wrapped `start_run` succeeded, in config order, each carrying the
response's run id and arn; a failed or exhausted launch contributes nothing
and does not stop the batch, and the success result exposes that list. -/
theorem C6_partial_failure (env : LaunchEnv) :
    launchedOf env = env.config.workflows.enum.filterMap (selectedLaunch env) ∧
    ∀ res, (LaunchOmics.handler env).2 = Except.ok res →
      res.launched_workflows = env.config.workflows.enum.filterMap (selectedLaunch env) := by
  have hl : launchedOf env = env.config.workflows.enum.filterMap (selectedLaunch env) := by
    show (launchLoop env env.config.workflows.enum []).2 = _
    rw [launchLoop_eq]
    simp
  refine ⟨hl, fun res hres => ?_⟩
  by_cases hnil : (launchLoop env env.config.workflows.enum []).2 = []
  · rw [show (LaunchOmics.handler env).2 =
        (if (launchLoop env env.config.workflows.enum []).2 = [] then
          Except.error noWorkflowsMsg
         else Except.ok ⟨env.run_id, (launchLoop env env.config.workflows.enum []).2,
          (launchLoop env env.config.workflows.enum []).2.length⟩) from rfl,
      if_pos hnil] at hres
    exact absurd hres (by simp)
  · rw [show (LaunchOmics.handler env).2 =
        (if (launchLoop env env.config.workflows.enum []).2 = [] then
          Except.error noWorkflowsMsg
         else Except.ok ⟨env.run_id, (launchLoop env env.config.workflows.enum []).2,
          (launchLoop env env.config.workflows.enum []).2.length⟩) from rfl,
      if_neg hnil] at hres
    have : res = (⟨env.run_id, (launchLoop env env.config.workflows.enum []).2,
        (launchLoop env env.config.workflows.enum []).2.length⟩ : LaunchResult) := by
      cases hres
      rfl
    rw [this]
    exact hl

/-- Witness for `C6_partial_failure`: the first workflow's launch fails
fatally, the second succeeds; the result list holds exactly the second one
with the response's id and arn. -/
theorem C6_partial_failure_check :
    (⟨"run-1", [⟨"metatdenovo", "id-2", "arn-2"⟩], 1⟩ : LaunchResult).launched_workflows =
      pacingEnv.config.workflows.enum.filterMap (selectedLaunch pacingEnv) :=
  (C6_partial_failure pacingEnv).2 ⟨"run-1", [⟨"metatdenovo", "id-2", "arn-2"⟩], 1⟩
    (by decide)

/-- **C7 (confirmed)**: a configured workflow is attempted iff its samplesheet
key `samplesheet_<name>.csv` is present in the manifest; a workflow whose key
is absent produces only a skip marker — no error, no effect on the other
workflows — and the attempted/skipped workflows appear in config order. -/
theorem C7_selection (env : LaunchEnv) :
    (LaunchOmics.handler env).1.filterMap attemptNameOf =
      ((env.config.workflows.filter fun wf =>
          decide (samplesheetKey wf.name ∈ env.manifestKeys)).map WorkflowConfig.name) ∧
    (LaunchOmics.handler env).1.filterMap skippedNameOf =
      ((env.config.workflows.filter fun wf =>
          !decide (samplesheetKey wf.name ∈ env.manifestKeys)).map WorkflowConfig.name) := by
  have htr : (LaunchOmics.handler env).1 =
      pacedTrace env env.config.workflows.enum false := by
    show (launchLoop env env.config.workflows.enum []).1 = _
    rw [launchLoop_eq]
    simp
  rw [htr, pacedTrace_filterMap_attempt, pacedTrace_filterMap_skipped]
  rw [show List.enum env.config.workflows = List.enumFrom 0 env.config.workflows from rfl,
    enumFrom_map_snd]
  exact ⟨rfl, rfl⟩

/-- **C8 counterexample**: the run name passed to `start_run` ignores the
launch timestamp — two launches of the same workflow for the same run label at
different times get identical run names. -/
theorem C8_counterexample :
    (buildStartRunCall "in-bucket" "out-bucket" "run-1" ⟨[], "role", "rg"⟩
        ⟨"mag", "arn:aws:omics:us-east-1:123:workflow/mag-1"⟩
        "2024-01-01T00:00:00").name =
      (buildStartRunCall "in-bucket" "out-bucket" "run-1" ⟨[], "role", "rg"⟩
        ⟨"mag", "arn:aws:omics:us-east-1:123:workflow/mag-1"⟩
        "2025-06-30T12:34:56").name ∧
    ("2024-01-01T00:00:00" : String) ≠ "2025-06-30T12:34:56" := by
  decide

/-- **C8 (amended)**: the run name is derived deterministically from the
workflow (job type) name and the run label only — `f"{workflow_name}-{run_id}"`
— and is independent of the launch timestamp, which flows only into the
`start_time` tag; launches of the same workflow and run label at different
times therefore share the same run name. -/
theorem C8_amended_run_name (bucket ob rid : String) (cfg : Config)
    (wf : WorkflowConfig) (t1 t2 : String) :
    (buildStartRunCall bucket ob rid cfg wf t1).name = wf.name ++ "-" ++ rid ∧
    (buildStartRunCall bucket ob rid cfg wf t1).name =
      (buildStartRunCall bucket ob rid cfg wf t2).name ∧
    (buildStartRunCall bucket ob rid cfg wf t1).tag_start_time = t1 :=
  ⟨rfl, rfl, rfl⟩
